import Mathlib

/-!
Shallow embedding of the streaming pattern-detection core of the
PocketOptionAPI-v2 repository.

Two Python classes are embedded:

* `pocketoptionapi/ml/pattern_detector.py` — `MultiSymbolPatternDetector`
  with `__init__` and `add_tick` (namespace `PatternDetector` below);
* `pocketoptionapi/ml/pattern_detection.py` — the extended
  `MultiSymbolPatternDetector` with `extract_features`, `detect_patterns`,
  `check_manipulation`, `predict_price`, `calculate_confidence` and
  `process_tick` (namespace `PatternDetection` below).

Modelling conventions:
* Python floats are modelled as rationals (`ℚ`), so OLS arithmetic is exact.
* `collections.deque(maxlen=w)` is modelled by a list together with the
  capacity-preserving append `dequeAppend`.
* The sklearn models are external library code, not repository code.
  `IsolationForest.fit` is modelled by a caller-supplied fallible function
  `ff : List ℚ → Except String (List ℚ)` returning the fitted model's data
  (or raising), and `-model.score_samples(X)[-1]` by a caller-supplied
  scoring function `sf : List ℚ → List ℚ → ℚ` applied to the data the model
  was fit on and the current window.  `LinearRegression` on the regular
  design `x = 0, 1, ..., n-1` is modelled exactly by its ordinary
  least-squares closed form (`linregFit`).
* A Python method that can raise is modelled as returning
  `Except err result × state`: the state component carries the mutations
  performed before the raise point (Python objects keep them).
-/

deriving instance DecidableEq for Except

namespace PatternDetector

/-- `TickData` dataclass: timestamp, price, optional volume. -/
structure TickData where
  timestamp : ℚ
  price : ℚ
  volume : Option ℚ := none
deriving Repr, DecidableEq

/-- `deque(maxlen=maxlen)` append: the new element goes to the tail and, if
the buffer was at capacity, the head is evicted (for `maxlen = 0` the deque
stays empty, as in Python). -/
def dequeAppend (maxlen : Nat) (buf : List TickData) (t : TickData) : List TickData :=
  (buf ++ [t]).drop (buf.length + 1 - maxlen)

/-- Ordinary least squares of `y` against `x = 0, 1, ..., n-1`, returning
`(slope, intercept)` — the closed form of `LinearRegression().fit` on that
design.  For this design matrix the normal-equation denominator
`n·Σx² − (Σx)²` equals `n²(n²−1)/12`, which vanishes exactly when `n ≤ 1`;
in that degenerate case sklearn's least-squares solution is slope `0` with
intercept the mean of `y` (the empty case never arises from a fit call with
a nonempty window). -/
def linregFit (y : List ℚ) : ℚ × ℚ :=
  let n : ℚ := y.length
  let xs : List ℚ := (List.range y.length).map (fun i => (i : ℚ))
  let sx := xs.sum
  let sy := y.sum
  let sxy := ((xs.zip y).map (fun p => p.1 * p.2)).sum
  let sxx := (xs.map (fun x => x * x)).sum
  if y.length ≤ 1 then (0, if y.length = 0 then 0 else sy / n)
  else
    let slope := (n * sxy - sx * sy) / (n * sxx - sx * sx)
    (slope, (sy - slope * sx) / n)

/-- `model.predict([[i]])[0]` for a fitted `LinearRegression`.  A `none`
model (never produced by a reachable trained state) yields `0`. -/
def linregPredict (m : Option (ℚ × ℚ)) (i : ℚ) : ℚ :=
  match m with
  | some p => p.1 * i + p.2
  | none => 0

/-- The per-symbol slices of the four dictionaries `buffers`, `models`,
`regressors`, `trained` of the Python class, grouped per symbol (the keys
of all four are the same fixed symbol list).  `forestFit` is `some X` when
the symbol's `IsolationForest` has been fit on price column `X`, `regModel`
is the fitted `(slope, intercept)` of its `LinearRegression`. -/
structure SymbolState where
  buffer : List TickData
  forestFit : Option (List ℚ)
  regModel : Option (ℚ × ℚ)
  trained : Bool
deriving Repr, DecidableEq

/-- Fresh per-symbol state created by `__init__`: empty buffer, unfitted
models, `trained = False`. -/
def initSymbolState : SymbolState :=
  { buffer := [], forestFit := none, regModel := none, trained := false }

/-- The `MultiSymbolPatternDetector` of `pattern_detector.py`.
`contamination` records the hard-coded `IsolationForest(contamination=0.01)`
argument.  `states` maps each symbol to its state; keys outside `symbols`
are never consulted (`add_tick` rejects them first). -/
structure Detector where
  symbols : List String
  window : Nat
  contamination : ℚ
  states : String → SymbolState

/-- `__init__(self, symbols, window=100)`: stores the symbols and window and
builds the per-symbol dictionaries.  There is no contamination parameter
(it is fixed at 0.01) and no argument validation. -/
def mkDetector (symbols : List String) (window : Nat := 100) : Detector :=
  { symbols := symbols
    window := window
    contamination := 1 / 100
    states := fun _ => initSymbolState }

/-- Errors `add_tick` can raise: `ValueError` for an unknown symbol, and a
propagated exception from `IsolationForest.fit`. -/
inductive PDError where
  | unknownSymbol (s : String)
  | modelFitFailure (msg : String)
deriving Repr, DecidableEq

/-- The dictionary returned by `add_tick`. -/
structure AddTickResult where
  anomaly_score : ℚ
  prediction : ℚ
deriving Repr, DecidableEq

/-- `add_tick(self, symbol, tick)`, parametrised by the `IsolationForest`
fit (`ff`) and scoring (`sf`) functions.  Faithful to the source:
raise `ValueError` for an unregistered symbol before any mutation; append
the tick to the symbol's deque; default result is
`anomaly_score = 0.0, prediction = tick.price`; when the buffer has reached
the window size, fit both models if not yet trained (a fit exception
propagates, with the append already performed and `trained` still false),
then score the last row and predict at `next_index = len(X)`. -/
def addTick (ff : List ℚ → Except String (List ℚ)) (sf : List ℚ → List ℚ → ℚ)
    (d : Detector) (symbol : String) (tick : TickData) :
    Except PDError AddTickResult × Detector :=
  if symbol ∈ d.symbols then
    let st := d.states symbol
    let buffer := dequeAppend d.window st.buffer tick
    if d.window ≤ buffer.length then
      let X : List ℚ := buffer.map (fun t => t.price)
      if st.trained then
        (.ok { anomaly_score := sf (st.forestFit.getD []) X
               prediction := linregPredict st.regModel (X.length : ℚ) },
         { d with states := fun s => if s = symbol then { st with buffer := buffer } else d.states s })
      else
        match ff X with
        | .error e =>
            (.error (.modelFitFailure e),
             { d with states := fun s => if s = symbol then { st with buffer := buffer } else d.states s })
        | .ok fd =>
            let rm := linregFit X
            (.ok { anomaly_score := sf fd X
                   prediction := linregPredict (some rm) (X.length : ℚ) },
             { d with states := fun s =>
                 if s = symbol then
                   { buffer := buffer, forestFit := some fd, regModel := some rm, trained := true }
                 else d.states s })
    else
      (.ok { anomaly_score := 0, prediction := tick.price },
       { d with states := fun s => if s = symbol then { st with buffer := buffer } else d.states s })
  else
    (.error (.unknownSymbol symbol), d)

/-- Feed a list of ticks to one symbol, keeping only the final state. -/
def feedAll (ff : List ℚ → Except String (List ℚ)) (sf : List ℚ → List ℚ → ℚ)
    (d : Detector) (symbol : String) (ts : List TickData) : Detector :=
  ts.foldl (fun d t => (addTick ff sf d symbol t).2) d

/-- The ordinary successful `IsolationForest.fit`: record the training data. -/
def defaultFit : List ℚ → Except String (List ℚ) := fun X => .ok X

/-- An `IsolationForest.fit` that raises (degenerate input). -/
def failingFit : List ℚ → Except String (List ℚ) := fun _ => .error "degenerate input"

/-- A scoring function returning a constant score, used for concrete runs. -/
def zeroScore : List ℚ → List ℚ → ℚ := fun _ _ => 0

/-- A concrete four-tick sequence used by concrete instantiations. -/
def fourTicks : List TickData :=
  [{ timestamp := 0, price := 1 }, { timestamp := 1, price := 2 },
   { timestamp := 2, price := 3 }, { timestamp := 3, price := 4 }]

/-- A concrete fifth tick used by concrete instantiations. -/
def fifthTick : TickData := { timestamp := 4, price := 5 }

end PatternDetector

namespace PatternDetection

/-!
Embedding of `pattern_detection.py`.  `tick_data` and feature mappings are
Python `Dict[str, float]`-style dictionaries, modelled as association lists
in insertion order.  A duck-typed callable that may raise is modelled as a
function into `Except String _`; a model object is its `predict` function
applied to the feature-value vector, returning the scalar `[0]` entry.
`self.models` is only ever read at keys `"pattern"` and `"price"`, so the
two sub-dictionaries are carried as the fields `patternModels` and
`priceModels`.
-/

/-- A `Dict[str, float]` in insertion order. -/
abbrev Dic := List (String × ℚ)

/-- `tick_data` as passed to `process_tick` (a dictionary of floats). -/
abbrev TickD := Dic

/-- One feature extractor: a callable from tick data to a feature mapping,
which may raise. -/
abbrev Extr := TickD → Except String Dic

/-- One model's `predict` applied to the feature vector (entry `[0]` of the
result), which may raise. -/
abbrev Model := List ℚ → Except String ℚ

/-- `dict.__setitem__`-style insert: overwrite an existing key in place,
otherwise append at the end. -/
def dictInsert (d : Dic) (kv : String × ℚ) : Dic :=
  if d.any (fun p => p.1 = kv.1) then
    d.map (fun p => if p.1 = kv.1 then (p.1, kv.2) else p)
  else d ++ [kv]

/-- `d.update(u)`: insert every pair of `u` in order. -/
def dictUpdate (d u : Dic) : Dic :=
  u.foldl dictInsert d

/-- Python truthiness of a pattern result: `None` is falsy, a float is
truthy iff nonzero. -/
def truthy : Option ℚ → Bool
  | some q => q ≠ 0
  | none => false

/-- One entry of `pattern_history[symbol]`. -/
structure HistEntry where
  tick : TickD
  patterns : List (String × Option ℚ)
  manipulation : ℚ
  prediction : Option ℚ
  confidence : ℚ
deriving DecidableEq

/-- The extended `MultiSymbolPatternDetector` after `__post_init__`:
symbol list, the two model sub-dictionaries, the extractor list and the
per-symbol history log (keys outside `symbols` never consulted:
`process_tick` raises `KeyError` first). -/
structure Detector2 where
  symbols : List String
  patternModels : List (String × Model)
  priceModels : List (String × Model)
  feature_extractors : List Extr
  pattern_history : String → List HistEntry

/-- `__post_init__` on a fresh instance: empty history per symbol. -/
def mkDetector2 (symbols : List String) (patternModels : List (String × Model))
    (priceModels : List (String × Model)) (extractors : List Extr) : Detector2 :=
  { symbols := symbols
    patternModels := patternModels
    priceModels := priceModels
    feature_extractors := extractors
    pattern_history := fun _ => [] }

/-- `extract_features`: run every extractor in order, merging its mapping
into `features`; an extractor that raises is skipped (`except: continue`)
and the remaining extractors still run. -/
def extract_features (extractors : List Extr) (tick : TickD) : Dic :=
  extractors.foldl
    (fun feats f =>
      match f tick with
      | .ok fs => dictUpdate feats fs
      | .error _ => feats)
    []

/-- `detect_patterns`: evaluate every named pattern model on the feature
value vector; a model that raises yields `None` for its own name only. -/
def detect_patterns (models : List (String × Model)) (fv : List ℚ) :
    List (String × Option ℚ) :=
  models.map (fun nm =>
    (nm.1, match nm.2 fv with
           | .ok v => some v
           | .error _ => none))

/-- `check_manipulation`: the count of truthy pattern results, as a float. -/
def check_manipulation (patterns : List (String × Option ℚ)) : ℚ :=
  ((patterns.filter (fun p => truthy p.2)).length : ℚ)

/-- `predict_price`: look the symbol up in the price sub-dictionary; `None` if no
model is registered for the symbol or if its `predict` raises. -/
def predict_price (priceModels : List (String × Model)) (symbol : String)
    (fv : List ℚ) : Option ℚ :=
  match priceModels.lookup symbol with
  | none => none
  | some m =>
      match m fv with
      | .ok v => some v
      | .error _ => none

/-- `calculate_confidence`: fraction of truthy pattern results, `0.0` for an
empty pattern dictionary. -/
def calculate_confidence (patterns : List (String × Option ℚ)) : ℚ :=
  if patterns = [] then 0
  else ((patterns.filter (fun p => truthy p.2)).length : ℚ) / (patterns.length : ℚ)

/-- The dictionary returned by `process_tick`. -/
structure ProcResult where
  patterns : List (String × Option ℚ)
  manipulation_score : ℚ
  prediction : Option ℚ
  confidence : ℚ
deriving DecidableEq

/-- The computation `process_tick` performs for a registered symbol:
features, patterns, manipulation score, prediction, confidence, then the
append to `pattern_history[symbol]`. -/
def processTickCore (d : Detector2) (symbol : String) (tick : TickD) :
    ProcResult × Detector2 :=
  let features := extract_features d.feature_extractors tick
  let fv := features.map (fun p => p.2)
  let patterns := detect_patterns d.patternModels fv
  let manipulation_score := check_manipulation patterns
  let prediction := predict_price d.priceModels symbol fv
  let confidence := calculate_confidence patterns
  let entry : HistEntry :=
    { tick := tick, patterns := patterns, manipulation := manipulation_score
      prediction := prediction, confidence := confidence }
  ({ patterns := patterns, manipulation_score := manipulation_score
     prediction := prediction, confidence := confidence },
   { d with pattern_history := fun s =>
       if s = symbol then d.pattern_history s ++ [entry] else d.pattern_history s })

/-- `process_tick`: for a registered symbol the full result is computed and
the history appended; for an unregistered symbol `pattern_history[symbol]`
raises `KeyError` (after the pure computations, before any mutation). -/
def process_tick (d : Detector2) (symbol : String) (tick : TickD) :
    Except String (ProcResult × Detector2) :=
  if symbol ∈ d.symbols then .ok (processTickCore d symbol tick)
  else .error "KeyError"

end PatternDetection

namespace PatternDetector

/-! ### Helper lemmas about the window buffer and `addTick` -/

lemma dequeAppend_length (N : Nat) (buf : List TickData) (t : TickData) :
    (dequeAppend N buf t).length = min (buf.length + 1) N := by
  simp only [dequeAppend, List.length_drop, List.length_append, List.length_cons,
    List.length_nil]
  omega

lemma foldl_dequeAppend (N : Nat) (ts : List TickData) :
    ∀ b : List TickData, b.length ≤ N →
      ts.foldl (dequeAppend N) b = (b ++ ts).drop (b.length + ts.length - N) := by
  induction ts with
  | nil =>
      intro b hb
      simp only [List.foldl_nil, List.append_nil, List.length_nil]
      have h0 : b.length + 0 - N = 0 := by omega
      rw [h0, List.drop_zero]
  | cons t ts ih =>
      intro b hb
      have hlen : (dequeAppend N b t).length ≤ N := by
        rw [dequeAppend_length]; omega
      have h2 : b.length + 1 - N ≤ (b ++ [t]).length := by
        simp only [List.length_append, List.length_cons, List.length_nil]
        omega
      have h1 : dequeAppend N b t ++ ts = (b ++ t :: ts).drop (b.length + 1 - N) := by
        rw [dequeAppend, ← List.drop_append_of_le_length h2, List.append_assoc]
        rfl
      simp only [List.foldl_cons]
      rw [ih _ hlen, h1, List.drop_drop]
      congr 1
      rw [dequeAppend_length]
      simp only [List.length_cons]
      omega

lemma dequeAppend_drop (N : Nat) (l : List TickData) (t : TickData) :
    dequeAppend N (l.drop (l.length - N)) t = (l ++ [t]).drop (l.length + 1 - N) := by
  have h1 : (l ++ [t]).drop (l.length - N) = l.drop (l.length - N) ++ [t] :=
    List.drop_append_of_le_length (by omega)
  rw [dequeAppend, ← h1, List.drop_drop]
  congr 1
  rw [List.length_drop]
  omega

lemma addTick_symbols (ff : List ℚ → Except String (List ℚ)) (sf : List ℚ → List ℚ → ℚ)
    (d : Detector) (s : String) (t : TickData) :
    ((addTick ff sf d s t).2).symbols = d.symbols := by
  simp only [addTick]
  repeat' split
  all_goals rfl

lemma addTick_window (ff : List ℚ → Except String (List ℚ)) (sf : List ℚ → List ℚ → ℚ)
    (d : Detector) (s : String) (t : TickData) :
    ((addTick ff sf d s t).2).window = d.window := by
  simp only [addTick]
  repeat' split
  all_goals rfl

lemma addTick_states_ne (ff : List ℚ → Except String (List ℚ)) (sf : List ℚ → List ℚ → ℚ)
    (d : Detector) (s : String) (t : TickData) (s' : String) (hne : s' ≠ s) :
    ((addTick ff sf d s t).2).states s' = d.states s' := by
  simp only [addTick]
  repeat' split
  all_goals simp [hne]

lemma addTick_buffer (ff : List ℚ → Except String (List ℚ)) (sf : List ℚ → List ℚ → ℚ)
    (d : Detector) (s : String) (t : TickData) (hs : s ∈ d.symbols) :
    (((addTick ff sf d s t).2).states s).buffer = dequeAppend d.window ((d.states s).buffer) t := by
  simp only [addTick]
  rw [if_pos hs]
  repeat' split
  all_goals simp

lemma feedAll_symbols (ff : List ℚ → Except String (List ℚ)) (sf : List ℚ → List ℚ → ℚ)
    (d : Detector) (s : String) (ts : List TickData) :
    (feedAll ff sf d s ts).symbols = d.symbols := by
  induction ts generalizing d with
  | nil => rfl
  | cons t ts ih =>
      show (feedAll ff sf ((addTick ff sf d s t).2) s ts).symbols = d.symbols
      rw [ih, addTick_symbols]

lemma feedAll_window (ff : List ℚ → Except String (List ℚ)) (sf : List ℚ → List ℚ → ℚ)
    (d : Detector) (s : String) (ts : List TickData) :
    (feedAll ff sf d s ts).window = d.window := by
  induction ts generalizing d with
  | nil => rfl
  | cons t ts ih =>
      show (feedAll ff sf ((addTick ff sf d s t).2) s ts).window = d.window
      rw [ih, addTick_window]

lemma feedAll_buffer (ff : List ℚ → Except String (List ℚ)) (sf : List ℚ → List ℚ → ℚ)
    (d : Detector) (s : String) (ts : List TickData) (hs : s ∈ d.symbols) :
    ((feedAll ff sf d s ts).states s).buffer =
      ts.foldl (dequeAppend d.window) ((d.states s).buffer) := by
  induction ts generalizing d with
  | nil => rfl
  | cons t ts ih =>
      show ((feedAll ff sf ((addTick ff sf d s t).2) s ts).states s).buffer = _
      rw [ih _ (by rw [addTick_symbols]; exact hs), addTick_buffer ff sf d s t hs,
        addTick_window]
      rfl

lemma feedAll_fresh_buffer (ff : List ℚ → Except String (List ℚ)) (sf : List ℚ → List ℚ → ℚ)
    (syms : List String) (N : Nat) (s : String) (ts : List TickData) (hs : s ∈ syms) :
    ((feedAll ff sf (mkDetector syms N) s ts).states s).buffer =
      ts.drop (ts.length - N) := by
  rw [feedAll_buffer ff sf (mkDetector syms N) s ts hs]
  have h := foldl_dequeAppend N ts [] (by simp)
  simpa using h

lemma addTick_below (ff : List ℚ → Except String (List ℚ)) (sf : List ℚ → List ℚ → ℚ)
    (d : Detector) (s : String) (t : TickData) (hs : s ∈ d.symbols)
    (hlt : (dequeAppend d.window ((d.states s).buffer) t).length < d.window) :
    (addTick ff sf d s t).1 = .ok { anomaly_score := 0, prediction := t.price } := by
  simp only [addTick]
  rw [if_pos hs, if_neg (by omega)]

lemma feedAll_snoc (ff : List ℚ → Except String (List ℚ)) (sf : List ℚ → List ℚ → ℚ)
    (d : Detector) (s : String) (ts : List TickData) (t : TickData) :
    feedAll ff sf d s (ts ++ [t]) = (addTick ff sf (feedAll ff sf d s ts) s t).2 := by
  simp [feedAll, List.foldl_append]

/-- Full characterization of a symbol's state after feeding `ts` ticks from
a fresh detector, with fits succeeding: the buffer holds the trailing
window; both models are fit exactly on the **first** `N` prices and only
once `ts` has reached length `N`; `trained` records exactly that. -/
lemma feedAll_states_char (sf : List ℚ → List ℚ → ℚ) (syms : List String)
    (N : Nat) (s : String) (ts : List TickData) (hs : s ∈ syms) (hN : 1 ≤ N) :
    (feedAll defaultFit sf (mkDetector syms N) s ts).states s =
      { buffer := ts.drop (ts.length - N)
        forestFit :=
          if N ≤ ts.length then some ((ts.take N).map (fun td => td.price)) else none
        regModel :=
          if N ≤ ts.length then some (linregFit ((ts.take N).map (fun td => td.price)))
          else none
        trained := decide (N ≤ ts.length) } := by
  induction ts using List.reverseRecOn with
  | nil =>
      have h : ¬ N ≤ ([] : List TickData).length := by simp; omega
      have hN0 : ¬ N = 0 := by omega
      simp [feedAll, mkDetector, initSymbolState, h, hN0]
  | append_singleton ts t ih =>
      rw [feedAll_snoc]
      have hsym : s ∈ (feedAll defaultFit sf (mkDetector syms N) s ts).symbols := by
        rw [feedAll_symbols]; exact hs
      have hwin : (feedAll defaultFit sf (mkDetector syms N) s ts).window = N := by
        rw [feedAll_window]; rfl
      have hb : ((feedAll defaultFit sf (mkDetector syms N) s ts).states s).buffer =
          ts.drop (ts.length - N) := by rw [ih]
      have hbuf : dequeAppend (feedAll defaultFit sf (mkDetector syms N) s ts).window
          (((feedAll defaultFit sf (mkDetector syms N) s ts).states s).buffer) t =
          (ts ++ [t]).drop (ts.length + 1 - N) := by
        rw [hb, hwin]; exact dequeAppend_drop N ts t
      have hlen : (dequeAppend (feedAll defaultFit sf (mkDetector syms N) s ts).window
          (((feedAll defaultFit sf (mkDetector syms N) s ts).states s).buffer) t).length =
          min (ts.length + 1) N := by
        rw [hbuf, List.length_drop, List.length_append]
        simp only [List.length_cons, List.length_nil]
        omega
      rcases Nat.lt_or_ge ts.length (N - 1) with hlt | hge
      · -- still below capacity after the append
        have h1 : ¬ N ≤ ts.length := by omega
        have h2 : ¬ N ≤ ts.length + 1 := by omega
        have hnotfull : ¬ ((feedAll defaultFit sf (mkDetector syms N) s ts).window ≤
            (dequeAppend (feedAll defaultFit sf (mkDetector syms N) s ts).window
              (((feedAll defaultFit sf (mkDetector syms N) s ts).states s).buffer) t).length) := by
          rw [hlen, hwin]; omega
        simp only [addTick, if_pos hsym, if_neg hnotfull]
        simp [ih, hwin, dequeAppend_drop, h1, h2, List.length_append]
      rcases Nat.eq_or_lt_of_le hge with heq | hgt
      · -- the window reaches capacity exactly now: first fit
        have h1 : ¬ N ≤ ts.length := by omega
        have h2 : N ≤ ts.length + 1 := by omega
        have hfull : (feedAll defaultFit sf (mkDetector syms N) s ts).window ≤
            (dequeAppend (feedAll defaultFit sf (mkDetector syms N) s ts).window
              (((feedAll defaultFit sf (mkDetector syms N) s ts).states s).buffer) t).length := by
          rw [hlen, hwin]; omega
        have htrF : ((feedAll defaultFit sf (mkDetector syms N) s ts).states s).trained = false := by
          rw [ih]; simp [h1]
        have hdropall : (ts ++ [t]).drop (ts.length + 1 - N) = ts ++ [t] := by
          have : ts.length + 1 - N = 0 := by omega
          rw [this, List.drop_zero]
        have htakeall : (ts ++ [t]).take N = ts ++ [t] := by
          apply List.take_of_length_le
          simp only [List.length_append, List.length_cons, List.length_nil]
          omega
        simp only [addTick, if_pos hsym, if_pos hfull, htrF, Bool.false_eq_true,
          if_false, defaultFit]
        simp [hbuf, hdropall, htakeall, h2, List.length_append]
      · -- already at capacity before: trained, no refit
        have h1 : N ≤ ts.length := by omega
        have h2 : N ≤ ts.length + 1 := by omega
        have hfull : (feedAll defaultFit sf (mkDetector syms N) s ts).window ≤
            (dequeAppend (feedAll defaultFit sf (mkDetector syms N) s ts).window
              (((feedAll defaultFit sf (mkDetector syms N) s ts).states s).buffer) t).length := by
          rw [hlen, hwin]; omega
        have htrT : ((feedAll defaultFit sf (mkDetector syms N) s ts).states s).trained = true := by
          rw [ih]; simp [h1]
        have htake : (ts ++ [t]).take N = ts.take N :=
          List.take_append_of_le_length h1
        simp only [addTick, if_pos hsym, if_pos hfull, htrT, if_true]
        simp [ih, hwin, dequeAppend_drop, h1, h2, htake, List.length_append]

/-- The result of `add_tick` on a full window for an already-trained symbol:
score the stored forest on the current window; predict with the stored
regression model at `next_index = len(X)`. -/
lemma addTick_trained_result (ff : List ℚ → Except String (List ℚ))
    (sf : List ℚ → List ℚ → ℚ) (d : Detector) (s : String) (t : TickData)
    (hs : s ∈ d.symbols) (htr : (d.states s).trained = true)
    (hfull : d.window ≤ (dequeAppend d.window ((d.states s).buffer) t).length) :
    (addTick ff sf d s t).1 = .ok
      { anomaly_score := sf ((d.states s).forestFit.getD [])
          ((dequeAppend d.window ((d.states s).buffer) t).map (fun td => td.price))
        prediction := linregPredict (d.states s).regModel
          (((dequeAppend d.window ((d.states s).buffer) t).length : ℚ)) } := by
  simp [addTick, hs, hfull, htr]

/-! ### Claims about `MultiSymbolPatternDetector.add_tick` (pattern_detector.py) -/

/-- **C1.** Models are fit at most once per symbol: after feeding `ts` ticks
(with fits succeeding), `trained` holds exactly when the window has ever
reached size `N` (that is, `N ≤ ts.length`, the first such call doing the
fitting), and both models are fit on the **first** `N` prices regardless of
how many ticks follow.  On any later call with a full window the models are
reused without refitting — the state after the extra call still carries the
first-window models — and the returned prediction stays anchored to the
first-window regression model evaluated at index `N` (never at any other
window length). -/
theorem lazy_fit_once_anchored_at_N (sf : List ℚ → List ℚ → ℚ)
    (syms : List String) (N : Nat) (s : String) (ts : List TickData)
    (t : TickData) (hs : s ∈ syms) (hN : 1 ≤ N) :
    ((feedAll defaultFit sf (mkDetector syms N) s ts).states s).trained
        = decide (N ≤ ts.length) ∧
    ((feedAll defaultFit sf (mkDetector syms N) s ts).states s).forestFit
        = (if N ≤ ts.length then some ((ts.take N).map (fun td => td.price)) else none) ∧
    ((feedAll defaultFit sf (mkDetector syms N) s ts).states s).regModel
        = (if N ≤ ts.length then some (linregFit ((ts.take N).map (fun td => td.price)))
           else none) ∧
    (N ≤ ts.length →
      (addTick defaultFit sf (feedAll defaultFit sf (mkDetector syms N) s ts) s t).1
          = .ok { anomaly_score :=
                    sf ((ts.take N).map (fun td => td.price))
                      (((ts ++ [t]).drop (ts.length + 1 - N)).map (fun td => td.price))
                  prediction :=
                    linregPredict (some (linregFit ((ts.take N).map (fun td => td.price))))
                      (N : ℚ) } ∧
      ((addTick defaultFit sf (feedAll defaultFit sf (mkDetector syms N) s ts) s t).2.states
          s).forestFit = some ((ts.take N).map (fun td => td.price)) ∧
      ((addTick defaultFit sf (feedAll defaultFit sf (mkDetector syms N) s ts) s t).2.states
          s).regModel = some (linregFit ((ts.take N).map (fun td => td.price)))) := by
  have hchar := feedAll_states_char sf syms N s ts hs hN
  refine ⟨by rw [hchar], by rw [hchar], by rw [hchar], ?_⟩
  intro hfull
  have hsym : s ∈ (feedAll defaultFit sf (mkDetector syms N) s ts).symbols := by
    rw [feedAll_symbols]; exact hs
  have hwin : (feedAll defaultFit sf (mkDetector syms N) s ts).window = N := by
    rw [feedAll_window]; rfl
  have hb : ((feedAll defaultFit sf (mkDetector syms N) s ts).states s).buffer =
      ts.drop (ts.length - N) := by rw [hchar]
  have htr : ((feedAll defaultFit sf (mkDetector syms N) s ts).states s).trained = true := by
    rw [hchar]; simp [hfull]
  have hforest : ((feedAll defaultFit sf (mkDetector syms N) s ts).states s).forestFit =
      some ((ts.take N).map (fun td => td.price)) := by
    rw [hchar]; simp [hfull]
  have hreg : ((feedAll defaultFit sf (mkDetector syms N) s ts).states s).regModel =
      some (linregFit ((ts.take N).map (fun td => td.price))) := by
    rw [hchar]; simp [hfull]
  have hbuf : dequeAppend (feedAll defaultFit sf (mkDetector syms N) s ts).window
      (((feedAll defaultFit sf (mkDetector syms N) s ts).states s).buffer) t =
      (ts ++ [t]).drop (ts.length + 1 - N) := by
    rw [hb, hwin]; exact dequeAppend_drop N ts t
  have hlenfull : (dequeAppend (feedAll defaultFit sf (mkDetector syms N) s ts).window
      (((feedAll defaultFit sf (mkDetector syms N) s ts).states s).buffer) t).length = N := by
    rw [hbuf, List.length_drop, List.length_append]
    simp only [List.length_cons, List.length_nil]
    omega
  have hfull2 : (feedAll defaultFit sf (mkDetector syms N) s ts).window ≤
      (dequeAppend (feedAll defaultFit sf (mkDetector syms N) s ts).window
        (((feedAll defaultFit sf (mkDetector syms N) s ts).states s).buffer) t).length := by
    rw [hlenfull, hwin]
  have hsnoc : (addTick defaultFit sf (feedAll defaultFit sf (mkDetector syms N) s ts) s t).2 =
      feedAll defaultFit sf (mkDetector syms N) s (ts ++ [t]) :=
    (feedAll_snoc defaultFit sf (mkDetector syms N) s ts t).symm
  have hchar2 := feedAll_states_char sf syms N s (ts ++ [t]) hs hN
  have hfull1 : N ≤ (ts ++ [t]).length := by
    rw [List.length_append]; simp only [List.length_cons, List.length_nil]; omega
  have htake : (ts ++ [t]).take N = ts.take N := List.take_append_of_le_length hfull
  refine ⟨?_, ?_, ?_⟩
  · rw [addTick_trained_result defaultFit sf _ s t hsym htr hfull2, hforest, hreg,
      hlenfull, hbuf]
    rfl
  · rw [hsnoc, hchar2]
    simp [hfull1, htake]
    all_goals omega
  · rw [hsnoc, hchar2]
    simp [hfull1, htake]
    all_goals omega

/-- Witness for C1: window 2, four ticks fed; the state is anchored to the
first two prices and the fifth tick's call predicts with that model at
index 2. -/
theorem lazy_fit_once_witness :
    "E" ∈ ["E"] ∧ 1 ≤ 2 ∧
    (((feedAll defaultFit zeroScore (mkDetector ["E"] 2) "E" fourTicks).states "E").trained
        = decide (2 ≤ fourTicks.length) ∧
      ((feedAll defaultFit zeroScore (mkDetector ["E"] 2) "E" fourTicks).states "E").forestFit
        = (if 2 ≤ fourTicks.length
           then some ((fourTicks.take 2).map (fun td => td.price)) else none) ∧
      ((feedAll defaultFit zeroScore (mkDetector ["E"] 2) "E" fourTicks).states "E").regModel
        = (if 2 ≤ fourTicks.length
           then some (linregFit ((fourTicks.take 2).map (fun td => td.price))) else none) ∧
      (2 ≤ fourTicks.length →
        (addTick defaultFit zeroScore
            (feedAll defaultFit zeroScore (mkDetector ["E"] 2) "E" fourTicks)
            "E" fifthTick).1
            = .ok { anomaly_score :=
                      zeroScore ((fourTicks.take 2).map (fun td => td.price))
                        (((fourTicks ++ [fifthTick]).drop (fourTicks.length + 1 - 2)).map
                          (fun td => td.price))
                    prediction :=
                      linregPredict
                        (some (linregFit ((fourTicks.take 2).map (fun td => td.price))))
                        ((2 : Nat) : ℚ) } ∧
        ((addTick defaultFit zeroScore
            (feedAll defaultFit zeroScore (mkDetector ["E"] 2) "E" fourTicks)
            "E" fifthTick).2.states "E").forestFit
            = some ((fourTicks.take 2).map (fun td => td.price)) ∧
        ((addTick defaultFit zeroScore
            (feedAll defaultFit zeroScore (mkDetector ["E"] 2) "E" fourTicks)
            "E" fifthTick).2.states "E").regModel
            = some (linregFit ((fourTicks.take 2).map (fun td => td.price))))) := by
  refine ⟨by decide, by decide, ?_⟩
  exact lazy_fit_once_anchored_at_N zeroScore ["E"] 2 "E" fourTicks fifthTick
    (by decide) (by decide)

/-- **C2.** For every sequence of `add_tick` calls on a detector built with
window capacity `N`, the symbol's window has length at most `N`, and after
any number of ticks it contains exactly the last `min(count, N)` ticks in
arrival order (`ts.drop (ts.length - N)`), the oldest evicted first. -/
theorem window_bound_fifo (ff : List ℚ → Except String (List ℚ))
    (sf : List ℚ → List ℚ → ℚ) (syms : List String) (N : Nat) (s : String)
    (ts : List TickData) (hs : s ∈ syms) :
    ((feedAll ff sf (mkDetector syms N) s ts).states s).buffer = ts.drop (ts.length - N) ∧
    ((feedAll ff sf (mkDetector syms N) s ts).states s).buffer.length = min ts.length N ∧
    ((feedAll ff sf (mkDetector syms N) s ts).states s).buffer.length ≤ N := by
  have hb := feedAll_fresh_buffer ff sf syms N s ts hs
  refine ⟨hb, ?_, ?_⟩ <;> rw [hb, List.length_drop] <;> omega

/-- Witness for C2: three ticks through a window of capacity 2 leave exactly
the last two, in order. -/
theorem window_bound_fifo_witness :
    "EURUSD" ∈ ["EURUSD"] ∧
    ((feedAll defaultFit zeroScore (mkDetector ["EURUSD"] 2) "EURUSD"
        [⟨0, 1, none⟩, ⟨1, 2, none⟩, ⟨2, 3, none⟩]).states "EURUSD").buffer =
      [⟨0, 1, none⟩, ⟨1, 2, none⟩, ⟨2, 3, none⟩].drop
        ([⟨0, 1, none⟩, ⟨1, 2, none⟩, (⟨2, 3, none⟩ : TickData)].length - 2) ∧
    ((feedAll defaultFit zeroScore (mkDetector ["EURUSD"] 2) "EURUSD"
        [⟨0, 1, none⟩, ⟨1, 2, none⟩, ⟨2, 3, none⟩]).states "EURUSD").buffer.length =
      min [⟨0, 1, none⟩, ⟨1, 2, none⟩, (⟨2, 3, none⟩ : TickData)].length 2 ∧
    ((feedAll defaultFit zeroScore (mkDetector ["EURUSD"] 2) "EURUSD"
        [⟨0, 1, none⟩, ⟨1, 2, none⟩, ⟨2, 3, none⟩]).states "EURUSD").buffer.length ≤ 2 := by
  refine ⟨by decide, ?_⟩
  exact window_bound_fifo defaultFit zeroScore ["EURUSD"] 2 "EURUSD"
    [⟨0, 1, none⟩, ⟨1, 2, none⟩, ⟨2, 3, none⟩] (by decide)

/-- **C3.** A registered symbol that has received fewer than `N` ticks in
total (window below capacity after the append) gets the fallback result:
`anomaly_score = 0.0` and `prediction` equal to the just-appended tick's
price. -/
theorem below_capacity_fallback (ff : List ℚ → Except String (List ℚ))
    (sf : List ℚ → List ℚ → ℚ) (syms : List String) (N : Nat) (s : String)
    (ts : List TickData) (t : TickData) (hs : s ∈ syms)
    (hcount : ts.length + 1 < N) :
    (addTick ff sf (feedAll ff sf (mkDetector syms N) s ts) s t).1 =
      .ok { anomaly_score := 0, prediction := t.price } := by
  have hsym : s ∈ (feedAll ff sf (mkDetector syms N) s ts).symbols := by
    rw [feedAll_symbols]; exact hs
  have hwin : (feedAll ff sf (mkDetector syms N) s ts).window = N := by
    rw [feedAll_window]; rfl
  apply addTick_below _ _ _ _ _ hsym
  rw [dequeAppend_length, hwin, feedAll_fresh_buffer ff sf syms N s ts hs,
    List.length_drop]
  omega

/-- Witness for C3: the second of three ticks into a window of capacity 3
returns score `0` and its own price. -/
theorem below_capacity_fallback_witness :
    "EURUSD" ∈ ["EURUSD"] ∧ ([(⟨0, 1, none⟩ : TickData)].length + 1 < 3) ∧
    (addTick defaultFit zeroScore
        (feedAll defaultFit zeroScore (mkDetector ["EURUSD"] 3) "EURUSD" [⟨0, 1, none⟩])
        "EURUSD" ⟨1, 7, none⟩).1 =
      .ok { anomaly_score := 0, prediction := (7 : ℚ) } := by
  refine ⟨by decide, by decide, ?_⟩
  exact below_capacity_fallback defaultFit zeroScore ["EURUSD"] 3 "EURUSD"
    [⟨0, 1, none⟩] ⟨1, 7, none⟩ (by decide) (by decide)

/-- **C5.** `add_tick` with a symbol not fixed at construction raises the
unknown-symbol `ValueError` and returns the detector completely unchanged
(every symbol's window, models and trained flag included). -/
theorem unknown_symbol_rejection (ff : List ℚ → Except String (List ℚ))
    (sf : List ℚ → List ℚ → ℚ) (d : Detector) (s : String) (t : TickData)
    (hs : s ∉ d.symbols) :
    (addTick ff sf d s t).1 = .error (.unknownSymbol s) ∧
    (addTick ff sf d s t).2 = d := by
  refine ⟨?_, ?_⟩ <;> simp [addTick, hs]

/-- Witness for C5: a tick for "GBPUSD" on a detector built for "EURUSD"
errors and leaves the detector untouched. -/
theorem unknown_symbol_rejection_witness :
    "GBPUSD" ∉ (mkDetector ["EURUSD"] 3).symbols ∧
    ((addTick defaultFit zeroScore (mkDetector ["EURUSD"] 3) "GBPUSD" ⟨0, 1, none⟩).1 =
        .error (.unknownSymbol "GBPUSD") ∧
      (addTick defaultFit zeroScore (mkDetector ["EURUSD"] 3) "GBPUSD" ⟨0, 1, none⟩).2 =
        mkDetector ["EURUSD"] 3) := by
  refine ⟨by decide, ?_⟩
  exact unknown_symbol_rejection defaultFit zeroScore (mkDetector ["EURUSD"] 3)
    "GBPUSD" ⟨0, 1, none⟩ (by decide)

/-- **C8.** `add_tick` for a registered symbol `s` mutates only `s`'s state:
every other symbol's window, models and trained flag are identical before
and after the call (and the symbol list and window capacity are untouched). -/
theorem add_tick_frame (ff : List ℚ → Except String (List ℚ))
    (sf : List ℚ → List ℚ → ℚ) (d : Detector) (s : String) (t : TickData)
    (s' : String) (_hs : s ∈ d.symbols) (hne : s' ≠ s) :
    ((addTick ff sf d s t).2).states s' = d.states s' ∧
    ((addTick ff sf d s t).2).symbols = d.symbols ∧
    ((addTick ff sf d s t).2).window = d.window := by
  exact ⟨addTick_states_ne ff sf d s t s' hne, addTick_symbols ff sf d s t,
    addTick_window ff sf d s t⟩

/-- **C4.** Scenario from the spec: detector for `{"EURUSD"}` with window 3;
prices `1.0, 1.1, 1.2`.  The third call fits the regressor on those prices
against indices `0, 1, 2` by ordinary least squares — slope `0.1`,
intercept `1.0` — and returns the extrapolation at index 3, namely `1.3`
(the anomaly score is whatever the forest's scoring function yields on that
same 3-point window). -/
theorem eurusd_scenario_ols_extrapolation (sf : List ℚ → List ℚ → ℚ) :
    linregFit [1, 11 / 10, 12 / 10] = (1 / 10, 1) ∧
    (addTick defaultFit sf
        (feedAll defaultFit sf (mkDetector ["EURUSD"] 3) "EURUSD"
          [⟨0, 1, none⟩, ⟨1, 11 / 10, none⟩])
        "EURUSD" ⟨2, 12 / 10, none⟩).1 =
      .ok { anomaly_score := sf [1, 11 / 10, 12 / 10] [1, 11 / 10, 12 / 10]
            prediction := 13 / 10 } ∧
    ((addTick defaultFit sf
        (feedAll defaultFit sf (mkDetector ["EURUSD"] 3) "EURUSD"
          [⟨0, 1, none⟩, ⟨1, 11 / 10, none⟩])
        "EURUSD" ⟨2, 12 / 10, none⟩).2.states "EURUSD").regModel = some (1 / 10, 1) ∧
    ((addTick defaultFit sf
        (feedAll defaultFit sf (mkDetector ["EURUSD"] 3) "EURUSD"
          [⟨0, 1, none⟩, ⟨1, 11 / 10, none⟩])
        "EURUSD" ⟨2, 12 / 10, none⟩).2.states "EURUSD").trained = true := by
  have hfit : linregFit [1, 11 / 10, 12 / 10] = (1 / 10, 1) := by
    simp [linregFit, List.range_succ]
    norm_num
  refine ⟨hfit, ?_, ?_, ?_⟩
  all_goals simp [feedAll, addTick, mkDetector, initSymbolState, dequeAppend, defaultFit,
    linregPredict, hfit]
  all_goals norm_num

/-- **C6, counterexample.** The claim says construction fails with
`InvalidConfiguration` whenever `window < 2`.  In the source, `__init__`
performs no validation at all (and takes no contamination argument —
`IsolationForest(contamination=0.01)` is hard-coded): a detector with
`window = 1` is constructed successfully and processes ticks normally. -/
theorem constructor_accepts_window_one :
    (mkDetector ["EURUSD"] 1).window = 1 ∧
    (mkDetector ["EURUSD"] 1).contamination = 1 / 100 ∧
    (addTick defaultFit zeroScore (mkDetector ["EURUSD"] 1) "EURUSD" ⟨0, 1, none⟩).1 =
      .ok { anomaly_score := 0, prediction := 1 } := by
  refine ⟨rfl, rfl, ?_⟩
  simp [addTick, mkDetector, initSymbolState, dequeAppend, defaultFit, zeroScore,
    linregFit, linregPredict]

/-- **C6, amended.** `__init__(symbols, window=100)` takes no contamination
parameter: the contamination is hard-coded at `0.01` in the per-symbol
`IsolationForest` and is not exposed as configuration.  No argument is
validated: for every symbol list and every window value (including
`window < 2`) construction succeeds and yields fresh per-symbol state. -/
theorem constructor_no_validation (syms : List String) (N : Nat) :
    (mkDetector syms N).symbols = syms ∧
    (mkDetector syms N).window = N ∧
    (mkDetector syms N).contamination = 1 / 100 ∧
    ∀ s : String, (mkDetector syms N).states s = initSymbolState := by
  exact ⟨rfl, rfl, rfl, fun _ => rfl⟩

/-- **C7, counterexample.** The claim says a fit failure is not propagated
and the call still returns the default score `0.0`.  In the source there is
no `try/except` around `fit`: with a window of capacity 2 and a fitting
function that raises, the second tick's `add_tick` call raises
`ModelFitFailure` instead of returning a result (though `trained` does
remain false). -/
theorem fit_failure_counterexample :
    (addTick failingFit zeroScore
        ((addTick failingFit zeroScore (mkDetector ["E"] 2) "E" ⟨0, 1, none⟩).2)
        "E" ⟨1, 2, none⟩).1 = .error (.modelFitFailure "degenerate input") ∧
    ((addTick failingFit zeroScore
        ((addTick failingFit zeroScore (mkDetector ["E"] 2) "E" ⟨0, 1, none⟩).2)
        "E" ⟨1, 2, none⟩).2.states "E").trained = false ∧
    (addTick failingFit zeroScore
        ((addTick failingFit zeroScore (mkDetector ["E"] 2) "E" ⟨0, 1, none⟩).2)
        "E" ⟨1, 2, none⟩).1 ≠ .ok { anomaly_score := 0, prediction := 2 } := by
  refine ⟨?_, ?_, ?_⟩ <;> decide

/-- **C7, amended.** If `IsolationForest.fit` raises on a full-window call,
`add_tick` propagates the exception to the caller (no default result is
returned); the tick stays appended, `trained` remains false and both models
stay unfitted, so the next full-window call for that symbol attempts the
fit again, and a successful retry trains the symbol. -/
theorem fit_failure_propagates (ff ff2 : List ℚ → Except String (List ℚ))
    (sf sf2 : List ℚ → List ℚ → ℚ) (d : Detector) (s : String) (t t2 : TickData)
    (e : String) (fd : List ℚ) (hs : s ∈ d.symbols)
    (htr : (d.states s).trained = false)
    (hfull : d.window ≤ (dequeAppend d.window ((d.states s).buffer) t).length)
    (hff : ff ((dequeAppend d.window ((d.states s).buffer) t).map (fun td => td.price)) =
      .error e)
    (hfull2 : d.window ≤
      (dequeAppend d.window (dequeAppend d.window ((d.states s).buffer) t) t2).length)
    (hff2 : ff2 ((dequeAppend d.window (dequeAppend d.window ((d.states s).buffer) t) t2).map
        (fun td => td.price)) = .ok fd) :
    (addTick ff sf d s t).1 = .error (.modelFitFailure e) ∧
    ((addTick ff sf d s t).2.states s).trained = false ∧
    ((addTick ff sf d s t).2.states s).buffer = dequeAppend d.window ((d.states s).buffer) t ∧
    ((addTick ff sf d s t).2.states s).forestFit = (d.states s).forestFit ∧
    ((addTick ff sf d s t).2.states s).regModel = (d.states s).regModel ∧
    ((addTick ff2 sf2 ((addTick ff sf d s t).2) s t2).2.states s).trained = true := by
  have hstate :
      (addTick ff sf d s t).2.states s =
        { buffer := dequeAppend d.window ((d.states s).buffer) t
          forestFit := (d.states s).forestFit
          regModel := (d.states s).regModel
          trained := false } := by
    simp [addTick, hs, hfull, htr, hff]
  have hres : (addTick ff sf d s t).1 = .error (.modelFitFailure e) := by
    simp [addTick, hs, hfull, htr, hff]
  have hs2 : s ∈ (addTick ff sf d s t).2.symbols := by
    rw [addTick_symbols]; exact hs
  have hw2 : (addTick ff sf d s t).2.window = d.window := addTick_window ff sf d s t
  refine ⟨hres, ?_, ?_, ?_, ?_, ?_⟩
  · rw [hstate]
  · rw [hstate]
  · rw [hstate]
  · rw [hstate]
  · generalize hd1 : (addTick ff sf d s t).2 = d1 at hstate hs2 hw2 ⊢
    simp [addTick, hs2, hstate, hw2, hfull2, hff2]

/-- Witness for C7 (amended): window capacity 1, a failing fit on the first
tick propagates, a succeeding fit on the second tick trains the symbol. -/
theorem fit_failure_propagates_witness :
    "E" ∈ (mkDetector ["E"] 1).symbols ∧
    (((mkDetector ["E"] 1).states "E").trained = false) ∧
    ((addTick failingFit zeroScore (mkDetector ["E"] 1) "E" ⟨0, 1, none⟩).1 =
        .error (.modelFitFailure "degenerate input") ∧
      ((addTick failingFit zeroScore (mkDetector ["E"] 1) "E" ⟨0, 1, none⟩).2.states "E").trained
          = false ∧
      ((addTick failingFit zeroScore (mkDetector ["E"] 1) "E" ⟨0, 1, none⟩).2.states "E").buffer
          = dequeAppend (mkDetector ["E"] 1).window
              (((mkDetector ["E"] 1).states "E").buffer) ⟨0, 1, none⟩ ∧
      ((addTick failingFit zeroScore (mkDetector ["E"] 1) "E" ⟨0, 1, none⟩).2.states "E").forestFit
          = ((mkDetector ["E"] 1).states "E").forestFit ∧
      ((addTick failingFit zeroScore (mkDetector ["E"] 1) "E" ⟨0, 1, none⟩).2.states "E").regModel
          = ((mkDetector ["E"] 1).states "E").regModel ∧
      ((addTick defaultFit zeroScore
          ((addTick failingFit zeroScore (mkDetector ["E"] 1) "E" ⟨0, 1, none⟩).2)
          "E" ⟨1, 2, none⟩).2.states "E").trained = true) := by
  refine ⟨by decide, by decide, ?_⟩
  exact fit_failure_propagates failingFit defaultFit zeroScore zeroScore
    (mkDetector ["E"] 1) "E" ⟨0, 1, none⟩ ⟨1, 2, none⟩ "degenerate input" [2]
    (by decide) (by decide) (by decide) (by decide) (by decide) (by decide)

/-- Witness for C8: a tick for "EURUSD" leaves "GBPUSD"'s state intact. -/
theorem add_tick_frame_witness :
    "EURUSD" ∈ (mkDetector ["EURUSD", "GBPUSD"] 2).symbols ∧ "GBPUSD" ≠ "EURUSD" ∧
    (((addTick defaultFit zeroScore (mkDetector ["EURUSD", "GBPUSD"] 2) "EURUSD"
          ⟨0, 1, none⟩).2).states "GBPUSD" =
        (mkDetector ["EURUSD", "GBPUSD"] 2).states "GBPUSD" ∧
      ((addTick defaultFit zeroScore (mkDetector ["EURUSD", "GBPUSD"] 2) "EURUSD"
          ⟨0, 1, none⟩).2).symbols = (mkDetector ["EURUSD", "GBPUSD"] 2).symbols ∧
      ((addTick defaultFit zeroScore (mkDetector ["EURUSD", "GBPUSD"] 2) "EURUSD"
          ⟨0, 1, none⟩).2).window = (mkDetector ["EURUSD", "GBPUSD"] 2).window) := by
  refine ⟨by decide, by decide, ?_⟩
  exact add_tick_frame defaultFit zeroScore (mkDetector ["EURUSD", "GBPUSD"] 2)
    "EURUSD" ⟨0, 1, none⟩ "GBPUSD" (by decide) (by decide)

end PatternDetector

namespace PatternDetection

/-! ### Claims about the extended variant (pattern_detection.py) -/

/-- A feature extractor that always succeeds, used for concrete runs. -/
def okExtr : Extr := fun _ => .ok [("x", 1)]

/-- A feature extractor that raises, used for concrete runs. -/
def badExtr : Extr := fun _ => .error "extractor boom"

/-- A pattern/price model whose `predict` always succeeds. -/
def okModel : Model := fun fv => .ok (fv.sum + 1)

/-- A pattern/price model whose `predict` raises. -/
def badModel : Model := fun _ => .error "model boom"

/-- **C9.** Failure isolation in the extended variant: an extractor that
raises is skipped without stopping the others (its features are omitted);
a named pattern model that raises is recorded as `None` for its own name
only, the other pattern models still evaluated; and `process_tick` still
completes, returning the full result and appending the matching history
entry. -/
theorem failure_isolation_extended (d : Detector2) (s : String) (tick : TickD)
    (e1 e2 : List Extr) (f : Extr) (err : String)
    (m1 m2 : List (String × Model)) (nm : String) (bm : Model) (err2 : String)
    (hs : s ∈ d.symbols)
    (hexts : d.feature_extractors = e1 ++ f :: e2)
    (hf : f tick = .error err)
    (hms : d.patternModels = m1 ++ (nm, bm) :: m2)
    (hbm : bm ((extract_features (e1 ++ e2) tick).map (fun p => p.2)) = .error err2) :
    extract_features d.feature_extractors tick = extract_features (e1 ++ e2) tick ∧
    process_tick d s tick = .ok (processTickCore d s tick) ∧
    (processTickCore d s tick).1.patterns =
      detect_patterns m1 ((extract_features (e1 ++ e2) tick).map (fun p => p.2)) ++
        (nm, none) ::
          detect_patterns m2 ((extract_features (e1 ++ e2) tick).map (fun p => p.2)) ∧
    (processTickCore d s tick).2.pattern_history s =
      d.pattern_history s ++
        [{ tick := tick
           patterns := (processTickCore d s tick).1.patterns
           manipulation := (processTickCore d s tick).1.manipulation_score
           prediction := (processTickCore d s tick).1.prediction
           confidence := (processTickCore d s tick).1.confidence }] := by
  have hfeat : extract_features d.feature_extractors tick =
      extract_features (e1 ++ e2) tick := by
    rw [hexts]
    simp [extract_features, List.foldl_append, hf]
  refine ⟨hfeat, ?_, ?_, ?_⟩
  · rw [process_tick, if_pos hs]
  · rw [processTickCore]
    simp only [hfeat, hms]
    simp [detect_patterns, hbm]
  · rw [processTickCore]
    simp

/-- Witness for C9: one good and one failing extractor, one good and one
failing pattern model; the failing ones are isolated. -/
theorem failure_isolation_extended_witness :
    "E" ∈ (mkDetector2 ["E"] [("good", okModel), ("bad", badModel)] [] [okExtr, badExtr]).symbols ∧
    (mkDetector2 ["E"] [("good", okModel), ("bad", badModel)] [] [okExtr, badExtr]).feature_extractors
      = [okExtr] ++ badExtr :: [] ∧
    badExtr [] = .error "extractor boom" ∧
    (mkDetector2 ["E"] [("good", okModel), ("bad", badModel)] [] [okExtr, badExtr]).patternModels
      = [("good", okModel)] ++ ("bad", badModel) :: [] ∧
    badModel ((extract_features ([okExtr] ++ []) []).map (fun p => p.2)) = .error "model boom" ∧
    (extract_features
        (mkDetector2 ["E"] [("good", okModel), ("bad", badModel)] [] [okExtr, badExtr]).feature_extractors
        [] = extract_features ([okExtr] ++ []) [] ∧
      process_tick (mkDetector2 ["E"] [("good", okModel), ("bad", badModel)] [] [okExtr, badExtr]) "E" []
        = .ok (processTickCore
            (mkDetector2 ["E"] [("good", okModel), ("bad", badModel)] [] [okExtr, badExtr]) "E" []) ∧
      (processTickCore (mkDetector2 ["E"] [("good", okModel), ("bad", badModel)] [] [okExtr, badExtr])
          "E" []).1.patterns =
        detect_patterns [("good", okModel)] ((extract_features ([okExtr] ++ []) []).map (fun p => p.2)) ++
          ("bad", none) ::
            detect_patterns [] ((extract_features ([okExtr] ++ []) []).map (fun p => p.2)) ∧
      (processTickCore (mkDetector2 ["E"] [("good", okModel), ("bad", badModel)] [] [okExtr, badExtr])
          "E" []).2.pattern_history "E" =
        (mkDetector2 ["E"] [("good", okModel), ("bad", badModel)] [] [okExtr, badExtr]).pattern_history "E" ++
          [{ tick := []
             patterns := (processTickCore
                 (mkDetector2 ["E"] [("good", okModel), ("bad", badModel)] [] [okExtr, badExtr])
                 "E" []).1.patterns
             manipulation := (processTickCore
                 (mkDetector2 ["E"] [("good", okModel), ("bad", badModel)] [] [okExtr, badExtr])
                 "E" []).1.manipulation_score
             prediction := (processTickCore
                 (mkDetector2 ["E"] [("good", okModel), ("bad", badModel)] [] [okExtr, badExtr])
                 "E" []).1.prediction
             confidence := (processTickCore
                 (mkDetector2 ["E"] [("good", okModel), ("bad", badModel)] [] [okExtr, badExtr])
                 "E" []).1.confidence }]) := by
  refine ⟨by decide, rfl, rfl, rfl, rfl, ?_⟩
  exact failure_isolation_extended
    (mkDetector2 ["E"] [("good", okModel), ("bad", badModel)] [] [okExtr, badExtr]) "E" []
    [okExtr] [] badExtr "extractor boom" [("good", okModel)] [] "bad" badModel "model boom"
    (by decide) rfl rfl rfl rfl

/-- **C10.** In the extended variant the returned (and history-recorded)
prediction is `None` whenever no price model is registered for the symbol
or the registered model's `predict` raises; the tick is still fully
processed: `process_tick` returns the complete result and appends the
history entry carrying `prediction = None`. -/
theorem prediction_none_isolated (d : Detector2) (s : String) (tick : TickD)
    (hs : s ∈ d.symbols)
    (hp : d.priceModels.lookup s = none ∨
      ∃ m err, d.priceModels.lookup s = some m ∧
        m ((extract_features d.feature_extractors tick).map (fun p => p.2)) = .error err) :
    process_tick d s tick = .ok (processTickCore d s tick) ∧
    (processTickCore d s tick).1.prediction = none ∧
    (processTickCore d s tick).2.pattern_history s =
      d.pattern_history s ++
        [{ tick := tick
           patterns := (processTickCore d s tick).1.patterns
           manipulation := (processTickCore d s tick).1.manipulation_score
           prediction := none
           confidence := (processTickCore d s tick).1.confidence }] := by
  have hpred : predict_price d.priceModels s
      ((extract_features d.feature_extractors tick).map (fun p => p.2)) = none := by
    rcases hp with h | ⟨m, err, hm, herr⟩
    · rw [predict_price, h]
    · rw [predict_price, hm]
      simp [herr]
  have hnone : (processTickCore d s tick).1.prediction = none := by
    rw [processTickCore]
    exact hpred
  refine ⟨by rw [process_tick, if_pos hs], hnone, ?_⟩
  rw [← hnone]
  rw [processTickCore]
  simp

/-- Witness for C10: no price model registered for the symbol; the tick is
processed, the result and history record a `None` prediction. -/
theorem prediction_none_isolated_witness :
    "E" ∈ (mkDetector2 ["E"] [] [] []).symbols ∧
    ((mkDetector2 ["E"] [] [] []).priceModels.lookup "E" = none ∨
      ∃ m err, (mkDetector2 ["E"] [] [] []).priceModels.lookup "E" = some m ∧
        m ((extract_features (mkDetector2 ["E"] [] [] []).feature_extractors []).map
            (fun p => p.2)) = .error err) ∧
    (process_tick (mkDetector2 ["E"] [] [] []) "E" []
        = .ok (processTickCore (mkDetector2 ["E"] [] [] []) "E" []) ∧
      (processTickCore (mkDetector2 ["E"] [] [] []) "E" []).1.prediction = none ∧
      (processTickCore (mkDetector2 ["E"] [] [] []) "E" []).2.pattern_history "E" =
        (mkDetector2 ["E"] [] [] []).pattern_history "E" ++
          [{ tick := []
             patterns := (processTickCore (mkDetector2 ["E"] [] [] []) "E" []).1.patterns
             manipulation :=
               (processTickCore (mkDetector2 ["E"] [] [] []) "E" []).1.manipulation_score
             prediction := none
             confidence :=
               (processTickCore (mkDetector2 ["E"] [] [] []) "E" []).1.confidence }]) := by
  refine ⟨by decide, Or.inl rfl, ?_⟩
  exact prediction_none_isolated (mkDetector2 ["E"] [] [] []) "E" []
    (by decide) (Or.inl rfl)

end PatternDetection
